import Mathlib

/-!
# NASA space explorer gallery: a model of `js/script.js`

The script fetches a JSON feed, renders one card per feed item, shows a random
space fact and opens a detail modal for a clicked card.  The development below
embeds the script function by function:

* JavaScript strings are `String`; a value that may be `undefined` is an
  `Option String`.
* Code that can throw returns `Except JsError _`; a `try`/`catch` is a `match`
  on that result.
* The document is an explicit record (`Doc`) passed through every operation;
  the gallery and the fact region are separate elements of it.
* A feed item is read through the nine fields the script uses, each a string
  or missing.
* What the browser provides and the script does not define (the `URL`
  constructor, `String.prototype.toLowerCase`, the fetch outcome, the clock,
  `Math.random`) is a parameter of the model.
-/

namespace SpaceExplorer

/-! ## JavaScript values and string helpers -/

/-- Exceptions the modelled code can raise. -/
inductive JsError
  /-- A `TypeError`: a property read on `null`, or a failed `new URL(...)`. -/
  | typeError (msg : String)
  /-- The `Error` thrown by the script for a response whose `ok` flag is false. -/
  | networkError (status : Nat)
  /-- The promise returned by `fetch` rejected. -/
  | fetchRejected
  /-- The `SyntaxError` of `response.json()` on a body that is not JSON. -/
  | syntaxError
  deriving DecidableEq, Repr

deriving instance DecidableEq for Except

/-- Truthiness of a possibly missing string: `undefined` and `""` are falsy. -/
def truthy : Option String → Bool
  | none => false
  | some s => s != ""

/-- The JavaScript expression `a || b` on possibly missing strings. -/
def jsOr (a b : Option String) : Option String :=
  if truthy a then a else b

/-- The JavaScript expression `a || d` where `d` is a string literal. -/
def jsOrStr (a : Option String) (d : String) : String :=
  match a with
  | some s => if s != "" then s else d
  | none => d

/-- String conversion inside a template literal: `undefined` prints as the
word "undefined". -/
def tmpl : Option String → String
  | some s => s
  | none => "undefined"

/-- The method `String.prototype.includes`: `t` occurs in `s`. -/
def includes (s t : String) : Bool :=
  s.data.tails.any (fun l => t.data.isPrefixOf l)

/-- The method `String.prototype.endsWith`. -/
def endsWith (s t : String) : Bool :=
  t.data.isSuffixOf s.data

/-- The call `s.slice(1)`: the string without its first character. -/
def slice1 (s : String) : String :=
  String.mk (s.data.drop 1)

/-- Splitting a character list at every occurrence of `sep`; the accumulator
`cur` holds the current piece reversed. -/
def splitAux (sep : Char) : List Char → List Char → List (List Char)
  | [], cur => [cur.reverse]
  | c :: cs, cur =>
    if c = sep then cur.reverse :: splitAux sep cs [] else splitAux sep cs (c :: cur)

/-- The call `s.split(sep)` for a one-character separator. -/
def split (s : String) (sep : Char) : List String :=
  (splitAux sep s.data []).map String.mk

/-- The call `xs.filter(Boolean)` on an array of strings: the non-empty ones. -/
def filterBoolean (xs : List String) : List String :=
  xs.filter (fun x => x != "")

/-- The call `xs.pop()` read as a value: the last element, `undefined` on an
empty array. -/
def pop (xs : List String) : Option String :=
  xs.getLast?

/-! ## The browser services the script relies on -/

/-- The parts of a parsed `URL` object that the script reads. -/
structure URL where
  /-- The property `hostname`. -/
  hostname : String
  /-- The property `pathname`. -/
  pathname : String
  /-- The entries of `searchParams`, in order, already decoded. -/
  searchParams : List (String × String)
  deriving DecidableEq, Repr

/-- The call `searchParams.has(name)`. -/
def URL.has (u : URL) (name : String) : Bool :=
  u.searchParams.any (fun p => p.1 == name)

/-- The call `searchParams.get(name)`: the first value stored under `name`. -/
def URL.get (u : URL) (name : String) : Option String :=
  (u.searchParams.find? (fun p => p.1 == name)).map Prod.snd

/-- Browser built-ins used by the script.  `parseURL` is `new URL(s)`, which
throws on a string that is not an absolute URL; the empty string never is
one. -/
structure Browser where
  /-- The constructor `new URL(s)`. -/
  parseURL : String → Except JsError URL
  /-- The method `String.prototype.toLowerCase`. -/
  toLowerCase : String → String
  /-- The empty string is not a URL. -/
  parse_empty : ∀ u, parseURL "" ≠ .ok u

/-! ## `toEmbedUrl` (script.js lines 15-44) -/

/-- The body of the `try` block of `toEmbedUrl`. -/
def toEmbedUrlTry (b : Browser) (url : String) : Except JsError String :=
  match b.parseURL url with
  | .error e => .error e
  | .ok u =>
    let host := b.toLowerCase u.hostname
    if includes host "youtube.com" && u.has "v" then
      .ok ("https://www.youtube.com/embed/" ++ ((u.get "v").getD "null"))
    else if host = "youtu.be" then
      let id := slice1 u.pathname
      .ok ("https://www.youtube.com/embed/" ++ id)
    else if includes host "vimeo.com" then
      let id := pop (filterBoolean (split u.pathname '/'))
      .ok ("https://player.vimeo.com/video/" ++ tmpl id)
    else
      .ok url

/-- The function `toEmbedUrl`: the falsy guard, then the `try` block with a
`catch` that returns the original string. -/
def toEmbedUrl (b : Browser) (url : String) : Except JsError String :=
  if url = "" then .ok ""
  else
    match toEmbedUrlTry b url with
    | .ok r => .ok r
    | .error _ => .ok url

/-! ## Feed items and the response body -/

/-- The array `space_facts` (script.js line 6). -/
def space_facts : List String :=
  [ "It would take nine years to walk to the moon.",
    "Mars is called the Red Planet because of its red coloring, which comes from the large amount of iron oxide – known on Earth as rust – on the planet’s surface.",
    "Mercury’s temperature varies from -280° F on its night side to 800° F during the day.",
    "If you can spot the Andromeda Galaxy with your naked eyes, you can see something 14.7 billion billion miles away.",
    "The Sun is 400 times larger than the Moon, but also 400 times as far away, making both objects appear to be the same size in our sky.",
    "Jupiter is the largest planet. It could contain the other seven planets in just 70 percent of its volume.",
    "Stars don’t twinkle until their light passes through Earth’s atmosphere.",
    "If Earth were the size of a tennis ball, the Sun would be a sphere 24 feet across, approximately 0.5 mile away.",
    "Of the 9,113 official features on the Moon, a mere 421 (4.6 percent) are not craters.",
    "Driving a car to the nearest star at 70 mph would take more than 356 billion years." ]

/-- A feed item: the fields the script reads, each a string or missing. -/
structure Item where
  url : Option String := none
  hdurl : Option String := none
  media_type : Option String := none
  title : Option String := none
  date : Option String := none
  date_created : Option String := none
  explanation : Option String := none
  thumbnail_url : Option String := none
  thumbnail : Option String := none
  deriving DecidableEq, Repr

/-- An element of the feed array: an object seen through its feed fields, or
`null`, on which the first field read throws. -/
inductive Elem
  | obj (item : Item)
  | null
  deriving DecidableEq, Repr

/-- The value `response.json()` resolves to.  An object is seen through its
feed fields. -/
inductive Json
  | null
  | bool (v : Bool)
  | number (n : Int)
  | string (s : String)
  | object (o : Item)
  | array (elems : List Elem)
  deriving DecidableEq, Repr

/-- What `fetch(API_URL)` and the body parse deliver in one cycle. -/
inductive FetchOutcome
  /-- The promise of `fetch` rejects (network failure). -/
  | rejected
  /-- A response arrives with the flag `ok`, a status code and a body; the
  body is `none` when it is not valid JSON, so that `response.json()` rejects. -/
  | response (ok : Bool) (status : Nat) (body : Option Json)
  deriving DecidableEq, Repr

/-- The environment of one run of `fetchAndRenderImages`. -/
structure Env where
  /-- The outcome of the network request. -/
  fetch : FetchOutcome
  /-- The reading of `Date.now()` at line 80. -/
  loadingStart : Int
  /-- The reading of `Date.now()` at line 93, after the body was parsed. -/
  nowParsed : Int
  /-- The reading of `Date.now()` at line 162, inside the `catch` block. -/
  nowCaught : Int
  /-- The value of `Math.floor(Math.random() * space_facts.length)`. -/
  randomIdx : Nat
  deriving Repr

/-! ## The document -/

/-- A gallery card built by `fetchAndRenderImages`. -/
structure Card where
  className : String
  innerHTML : String
  /-- The item the click listener passes to `openCard`. -/
  onClick : Item
  deriving DecidableEq, Repr

/-- A child of the gallery region: markup written through `innerHTML`, or an
appended card. -/
inductive Child
  | markup (html : String)
  | card (c : Card)
  deriving DecidableEq, Repr

/-- The children an element has after `el.innerHTML = html`. -/
def setInnerHTML (html : String) : List Child :=
  if html = "" then [] else [.markup html]

/-- The element with id `space-facts`: the four style properties the script
writes and its content. -/
structure FactEl where
  textAlign : String
  margin : String
  fontSize : String
  color : String
  innerHTML : String
  deriving DecidableEq, Repr

/-- The modal panel inside an overlay. -/
structure Modal where
  className : String
  style : List (String × String)
  innerHTML : String
  deriving DecidableEq, Repr

/-- An overlay appended to `document.body` by `openCard`.  The field `id`
names the call of `openCard` that created it, and with it the closures
`closeModal` and `onKeyDown` of that call. -/
structure Overlay where
  id : Nat
  className : String
  style : List (String × String)
  modal : Modal
  deriving DecidableEq, Repr

/-- The document state the script reads and writes. -/
structure Doc where
  /-- The children of the element with id `gallery`; `none` when absent. -/
  gallery : Option (List Child)
  /-- The element with id `space-facts`; `none` when absent. -/
  factEl : Option FactEl
  /-- The overlays among the children of `document.body`, oldest first. -/
  overlays : List Overlay
  /-- The `keydown` listeners registered on `document` by `openCard`, each
  named by the call that created it, in registration order. -/
  keydownListeners : List Nat
  /-- The name the next call of `openCard` gets. -/
  nextId : Nat
  deriving DecidableEq, Repr

/-! ## `showRandomFact` (script.js lines 52-70) -/

/-- The markup written into the fact region. -/
def factHtml (fact : String) : String :=
  "\n    <h2 style=\"text-align:center;margin:0 0 8px 0;font-size:20px;color:#f1f1f1;font-family:Helvetica, sans-serif;\">Did you know?</h2>\n    <p style=\"text-align:center;margin:0;font-size:18px;color:#f1f1f1;font-family:Public Sans, sans-serif;white-space:pre-wrap;\">" ++
    fact ++
    "</p>\n  "

/-- The function `showRandomFact`.  It returns early without a gallery; it
reads the fact element with `getElementById` and writes its style and
content, which throws a `TypeError` when the element is absent. -/
def showRandomFact (idx : Nat) (doc : Doc) : Except JsError Doc :=
  match doc.gallery with
  | none => .ok doc
  | some _ =>
    let fact := jsOrStr space_facts[idx]? ""
    match doc.factEl with
    | none => .error (.typeError "Cannot read properties of null (reading style)")
    | some _ =>
      .ok { doc with
            factEl := some { textAlign := "center"
                             margin := "12px 0"
                             fontSize := "18px"
                             color := "#f1f1f1"
                             innerHTML := factHtml fact } }

/-! ## The cards of `fetchAndRenderImages` (script.js lines 110-159) -/

/-- The constant `mediaUrl` of the card loop. -/
def cardMediaUrl (item : Item) : String :=
  jsOrStr (jsOr item.url item.hdurl) ""

/-- The constant `mediaType` of the card loop. -/
def cardMediaType (item : Item) : String :=
  jsOrStr item.media_type "image"

/-- The constant `title` of the card loop. -/
def cardTitle (item : Item) : String :=
  jsOrStr item.title "Untitled"

/-- The constant `date` of the card loop. -/
def cardDate (item : Item) : String :=
  jsOrStr (jsOr item.date item.date_created) "Unknown date"

/-- The play-icon block shown for a video without thumbnail. -/
def playPlaceholderHtml : String :=
  "\n            <div class=\"card-image\" style=\"display:flex;align-items:center;justify-content:center;height:200px;background:#000;color:#fff;border-radius:4px;\">\n              <div style=\"text-align:center;\">\n                <div style=\"font-size:36px;line-height:1;\">▶</div>\n                <div style=\"font-size:14px;margin-top:6px;\">Video</div>\n              </div>\n            </div>\n          "

/-- The variable `thumbHtml` of the card loop. -/
def thumbHtml (item : Item) : String :=
  let mediaUrl := cardMediaUrl item
  let title := cardTitle item
  if cardMediaType item = "video" then
    let thumb := jsOrStr (jsOr item.thumbnail_url item.thumbnail) ""
    if thumb != "" then
      "<img src=\"" ++
      thumb ++
      "\" alt=\"" ++
      title ++
      " (video thumbnail)\" class=\"card-image\" />"
    else
      playPlaceholderHtml
  else
    if mediaUrl != "" then
      "<img src=\"" ++
      mediaUrl ++
      "\" alt=\"" ++
      title ++
      "\" class=\"card-image\" />"
    else ""

/-- The markup assigned to `card.innerHTML`. -/
def cardHtml (item : Item) : String :=
  let thumbHtml := thumbHtml item
  let title := cardTitle item
  let date := cardDate item
  "\n        " ++
    thumbHtml ++
    "\n        <div class=\"card-body\">\n          <h3 class=\"card-title\">" ++
    title ++
    "</h3>\n          <p class=\"card-date\">" ++
    date ++
    "</p>\n        </div>\n      "

/-- The card element built for one item. -/
def cardOf (item : Item) : Card :=
  { className := "gallery-item", innerHTML := cardHtml item, onClick := item }

/-- The loop `items.forEach(...)`: one card appended per element, in order.
An element that is `null` makes the first field read throw; the cards
appended before it stay. -/
def forEachCard : List Elem → List Child → Option JsError × List Child
  | [], g => (none, g)
  | .null :: _, g => (some (.typeError "Cannot read properties of null (reading url)"), g)
  | .obj item :: rest, g => forEachCard rest (g ++ [.card (cardOf item)])

/-! ## `fetchAndRenderImages` (script.js lines 73-171) -/

/-- The loading placeholder (line 77). -/
def loadingHtml : String :=
  "<div class=\"placeholder\"><p>Loading images…</p></div>"

/-- The placeholder for an empty or non-array result (line 103). -/
def noImagesHtml : String :=
  "<div class=\"placeholder\"><p>No images found.</p></div>"

/-- The failure message (line 168). -/
def failedHtml : String :=
  "<div class=\"placeholder\"><p>Failed to load images. Try again later.</p></div>"

/-- The state one run of `fetchAndRenderImages` leaves behind. -/
structure Outcome where
  /-- The document at the end of the run. -/
  doc : Doc
  /-- The arguments of the calls of `delay`, in order. -/
  delays : List Int
  /-- The error passed to `console.error`, if the `catch` block ran. -/
  logged : Option JsError
  deriving DecidableEq, Repr

/-- The `try` block (lines 82-159) run on the document `doc`, whose gallery
already shows the loading placeholder.  The result holds the error thrown,
if any, the document and the delays requested up to that point. -/
def tryBlock (env : Env) (doc : Doc) : Option JsError × Doc × List Int :=
  match env.fetch with
  | .rejected => (some .fetchRejected, doc, [])
  | .response ok status body =>
    if !ok then (some (.networkError status), doc, [])
    else
      match body with
      | none => (some .syntaxError, doc, [])
      | some items =>
        let elapsed := env.nowParsed - env.loadingStart
        let delays := if elapsed < 2000 then [2000 - elapsed] else []
        let doc := { doc with gallery := some (setInnerHTML "") }
        match items with
        | .array (e :: es) =>
          match showRandomFact env.randomIdx doc with
          | .error err => (some err, doc, delays)
          | .ok doc =>
            let r := forEachCard (e :: es) (doc.gallery.getD [])
            (r.1, { doc with gallery := some r.2 }, delays)
        | _ => (none, { doc with gallery := some (setInnerHTML noImagesHtml) }, delays)

/-- The function `fetchAndRenderImages`.  Without a gallery element the first
statement throws outside the `try` block and the run fails; otherwise the
`catch` block turns every error of the `try` block into the failure
message. -/
def fetchAndRenderImages (env : Env) (doc : Doc) : Except JsError Outcome :=
  match doc.gallery with
  | none => .error (.typeError "Cannot set properties of null (setting innerHTML)")
  | some _ =>
    let doc := { doc with gallery := some (setInnerHTML loadingHtml) }
    match tryBlock env doc with
    | (none, doc, delays) => .ok { doc := doc, delays := delays, logged := none }
    | (some error, doc, delays) =>
      let elapsed := env.nowCaught - env.loadingStart
      let delays := if elapsed < 1000 then delays ++ [1000 - elapsed] else delays
      .ok { doc := { doc with gallery := some (setInnerHTML failedHtml) }
            delays := delays
            logged := some error }

/-! ## `openCard` (script.js lines 174-288) -/

/-- The constant `title` of `openCard`. -/
def modalTitle (item : Item) : String :=
  jsOrStr item.title "Untitled"

/-- The constant `date` of `openCard`. -/
def modalDate (item : Item) : String :=
  jsOrStr (jsOr item.date item.date_created) "Unknown date"

/-- The constant `explanation` of `openCard`. -/
def modalExplanation (item : Item) : String :=
  jsOrStr item.explanation ""

/-- The constant `mediaUrl` of `openCard`. -/
def modalMediaUrl (item : Item) : String :=
  jsOrStr (jsOr item.url item.hdurl) ""

/-- The constant `mediaType` of `openCard`. -/
def modalMediaType (item : Item) : String :=
  jsOrStr item.media_type "image"

/-- The constant `isDirectVideo` of `openCard`. -/
def isDirectVideo (b : Browser) (mediaUrl : String) : Bool :=
  let lower := b.toLowerCase mediaUrl
  endsWith lower ".mp4" || endsWith lower ".webm" || endsWith lower ".ogg"

/-- The native player markup (lines 216-223). -/
def videoHtml (mediaUrl : String) : String :=
  "\n        <div style=\"text-align:center;\">\n          <video controls style=\"max-width:100%;height:auto;border-radius:4px;\">\n            <source src=\"" ++
    mediaUrl ++
    "\" />\n            Your browser does not support the video tag.\n          </video>\n        </div>\n      "

/-- The iframe markup (lines 227-231). -/
def iframeHtml (embed : String) : String :=
  "\n        <div style=\"width:100%;height:480px;max-height:60vh;\">\n          <iframe src=\"" ++
    embed ++
    "\" frameborder=\"0\" allowfullscreen style=\"width:100%;height:100%;\"></iframe>\n        </div>\n      "

/-- The image markup (lines 235-239). -/
def imgHtml (mediaUrl title : String) : String :=
  "\n      <div style=\"text-align:center;\">\n        <img src=\"" ++
    mediaUrl ++
    "\" alt=\"" ++
    title ++
    "\" style=\"max-width:100%;height:auto;border-radius:4px;\" />\n      </div>\n    "

/-- The variable `mediaHtml` of `openCard` (lines 208-240). -/
def mediaHtml (b : Browser) (item : Item) : Except JsError String :=
  let mediaUrl := modalMediaUrl item
  if modalMediaType item = "video" then
    if isDirectVideo b mediaUrl then
      .ok (videoHtml mediaUrl)
    else
      match toEmbedUrl b mediaUrl with
      | .error e => .error e
      | .ok embed => .ok (iframeHtml embed)
  else
    .ok (imgHtml mediaUrl (modalTitle item))

/-- The markup assigned to `modal.innerHTML` (lines 243-251). -/
def modalHtml (mediaHtml title date explanation : String) : String :=
  "\n    <button class=\"modal-close\" aria-label=\"Close\" style=\"position:absolute;right:8px;top:8px;border:none;background:#222;color:#fff;padding:6px 10px;border-radius:4px;cursor:pointer;\">×</button>\n    <div class=\"modal-media\">" ++
    mediaHtml ++
    "</div>\n    <div class=\"modal-info\" style=\"margin-top:12px;\">\n      <h2 style=\"margin:0 0 6px 0;\">" ++
    title ++
    "</h2>\n      <p style=\"margin:0 0 12px 0;color:#666;\">" ++
    date ++
    "</p>\n      <p style=\"margin:0 0 12px 0;white-space:pre-wrap;\">" ++
    explanation ++
    "</p>\n    </div>\n  "

/-- The inline style of the overlay (lines 186-193). -/
def overlayStyle : List (String × String) :=
  [ ("position", "fixed"), ("inset", "0"), ("background", "rgba(0,0,0,0.7)"),
    ("display", "flex"), ("alignItems", "center"), ("justifyContent", "center"),
    ("zIndex", "1000"), ("padding", "20px") ]

/-- The inline style of the modal panel (lines 198-206). -/
def modalStyle : List (String × String) :=
  [ ("maxWidth", "900px"), ("width", "100%"), ("maxHeight", "90vh"),
    ("overflow", "auto"), ("background", "#fff"), ("borderRadius", "8px"),
    ("boxShadow", "0 10px 30px rgba(0,0,0,0.3)"), ("position", "relative"),
    ("padding", "16px") ]

/-- The function `openCard`: build the overlay, append it to the body and
register the `keydown` listener of this call on the document. -/
def openCard (b : Browser) (item : Item) (doc : Doc) : Except JsError Doc :=
  match mediaHtml b item with
  | .error e => .error e
  | .ok media =>
    let modal : Modal :=
      { className := "modal"
        style := modalStyle
        innerHTML :=
          modalHtml media (modalTitle item) (modalDate item) (modalExplanation item) }
    let overlay : Overlay :=
      { id := doc.nextId, className := "modal-overlay", style := overlayStyle, modal := modal }
    .ok { doc with
          overlays := doc.overlays ++ [overlay]
          keydownListeners := doc.keydownListeners ++ [doc.nextId]
          nextId := doc.nextId + 1 }

/-- The closure `closeModal` of the call `k` of `openCard` (lines 258-263):
the overlay is removed when it still has a parent, and the listener of the
same call is removed from the document. -/
def closeModal (k : Nat) (doc : Doc) : Doc :=
  { doc with
    overlays :=
      if doc.overlays.any (fun o => o.id == k) then doc.overlays.filter (fun o => o.id != k)
      else doc.overlays
    keydownListeners := doc.keydownListeners.filter (fun l => l != k) }

/-- The closure `onKeyDown` of the call `k` of `openCard` (lines 282-286). -/
def onKeyDown (k : Nat) (key : String) (doc : Doc) : Doc :=
  if key = "Escape" then closeModal k doc else doc

/-- A `keydown` event on the document: the listeners registered when the
event starts run in order, each only if it is still registered at its turn. -/
def dispatchKeydown (key : String) (doc : Doc) : Doc :=
  doc.keydownListeners.foldl
    (fun d k => if k ∈ d.keydownListeners then onKeyDown k key d else d) doc

/-- What the user can do to the page once cards are shown. -/
inductive Action
  /-- A call `openCard(item)`. -/
  | openCard (item : Item)
  /-- A click on the `i`-th child of the gallery. -/
  | clickCard (i : Nat)
  /-- A click on the close button of the modal of call `k`. -/
  | clickClose (k : Nat)
  /-- A click that reaches the overlay of call `k`; `onBackdrop` tells whether
  the overlay itself was the target, or something inside the panel. -/
  | clickOverlay (k : Nat) (onBackdrop : Bool)
  /-- A key press. -/
  | keydown (key : String)
  deriving DecidableEq, Repr

/-- One action applied to the document. -/
def step (b : Browser) (doc : Doc) : Action → Except JsError Doc
  | .openCard item => openCard b item doc
  | .clickCard i =>
    match doc.gallery.bind (fun g => g[i]?) with
    | some (.card c) => openCard b c.onClick doc
    | _ => .ok doc
  | .clickClose k => .ok (closeModal k doc)
  | .clickOverlay k onBackdrop => .ok (if onBackdrop then closeModal k doc else doc)
  | .keydown key => .ok (dispatchKeydown key doc)

/-- A sequence of actions applied from left to right; it stops at the first
action that throws. -/
def runActions (b : Browser) : List Action → Doc → Except JsError Doc
  | [], doc => .ok doc
  | a :: rest, doc =>
    match step b doc a with
    | .error e => .error e
    | .ok doc => runActions b rest doc

/-- A document without any modal: no overlay and no modal listener. -/
def Doc.noModal (doc : Doc) : Prop :=
  doc.overlays = [] ∧ doc.keydownListeners = []

/-- The modal bookkeeping is consistent: the registered listeners are those
of the overlays in the document, in the same order, each named once, and
every name was handed out by an earlier call of `openCard`. -/
def Doc.modalsConsistent (doc : Doc) : Prop :=
  doc.keydownListeners = doc.overlays.map (fun o => o.id) ∧
  doc.keydownListeners.Nodup ∧
  ∀ k ∈ doc.keydownListeners, k < doc.nextId

/-- The page as loaded: an empty gallery, the fact region present or not. -/
def initialDoc (factEl : Option FactEl) : Doc :=
  { gallery := some [], factEl := factEl, overlays := [], keydownListeners := [], nextId := 0 }

/-! ## A reference browser for concrete evaluation -/

/-- ASCII lower-casing of a character list. -/
def lowerChars (cs : List Char) : List Char :=
  cs.map (fun c => if 'A' ≤ c ∧ c ≤ 'Z' then Char.ofNat (c.toNat + 32) else c)

/-- One `name=value` piece of a query string. -/
def queryPair (cs : List Char) : String × String :=
  (String.mk (cs.takeWhile (fun c => c ≠ '=')),
   String.mk ((cs.dropWhile (fun c => c ≠ '=')).drop 1))

/-- The reference URL parser: `http://` or `https://`, then a non-empty host
without blanks, then an optional path, query and fragment.  It stands in for
the browser parser on plain web addresses. -/
def refParse (s : String) : Except JsError URL :=
  let cs := s.data
  let rest :=
    if "https://".data.isPrefixOf cs then some (cs.drop 8)
    else if "http://".data.isPrefixOf cs then some (cs.drop 7)
    else none
  match rest with
  | none => .error (.typeError "Invalid URL")
  | some r =>
    let stop : Char → Bool := fun c => c = '/' || c = '?' || c = '#'
    let host := r.takeWhile (fun c => !stop c)
    let afterHost := r.dropWhile (fun c => !stop c)
    if host = [] ∨ ' ' ∈ host then .error (.typeError "Invalid URL")
    else
      let noFrag := afterHost.takeWhile (fun c => c ≠ '#')
      let path := noFrag.takeWhile (fun c => c ≠ '?')
      let query := (noFrag.dropWhile (fun c => c ≠ '?')).drop 1
      .ok { hostname := String.mk (lowerChars host)
            pathname := String.mk (if path = [] then ['/'] else path)
            searchParams :=
              ((splitAux '&' query []).filter (fun p => p ≠ [])).map queryPair }

/-- The reference browser: `refParse` and ASCII lower-casing. -/
def refBrowser : Browser where
  parseURL := refParse
  toLowerCase := fun s => String.mk (lowerChars s.data)
  parse_empty := by
    intro u
    simp [refParse]

/-! ## Helper lemmas -/

theorem url_ne_empty_of_parse (b : Browser) (url : String) (u : URL)
    (h : b.parseURL url = .ok u) : url ≠ "" := by
  intro he
  subst he
  exact b.parse_empty u h

theorem get_of_has (u : URL) (name : String) (h : u.has name = true) :
    ∃ v, u.get name = some v ∧ (name, v) ∈ u.searchParams := by
  unfold URL.has at h
  unfold URL.get
  obtain ⟨p, hp, hname⟩ := List.any_eq_true.mp h
  cases hf : u.searchParams.find? (fun p => p.1 == name) with
  | none =>
    have := List.find?_eq_none.mp hf p hp
    exact absurd hname this
  | some q =>
    refine ⟨q.2, rfl, ?_⟩
    have hq := List.find?_some hf
    have hmem := List.mem_of_find?_eq_some hf
    have : q.1 = name := by simpa using hq
    rw [← this]
    exact hmem

theorem setInnerHTML_empty : setInnerHTML "" = [] := rfl

theorem setInnerHTML_noImages : setInnerHTML noImagesHtml = [.markup noImagesHtml] := by
  decide

theorem setInnerHTML_failed : setInnerHTML failedHtml = [.markup failedHtml] := by decide

theorem forEachCard_objs (items : List Item) (g : List Child) :
    forEachCard (items.map Elem.obj) g = (none, g ++ items.map (fun i => .card (cardOf i))) := by
  induction items generalizing g with
  | nil => simp [forEachCard]
  | cons i rest ih => simp [forEachCard, ih]

theorem toEmbedUrl_ok (b : Browser) (url : String) : ∃ r, toEmbedUrl b url = .ok r := by
  unfold toEmbedUrl
  split
  · exact ⟨_, rfl⟩
  · split <;> exact ⟨_, rfl⟩

theorem mediaHtml_ok (b : Browser) (item : Item) : ∃ m, mediaHtml b item = .ok m := by
  unfold mediaHtml
  simp only []
  split
  · split
    · exact ⟨_, rfl⟩
    · obtain ⟨r, hr⟩ := toEmbedUrl_ok b (modalMediaUrl item)
      rw [hr]
      exact ⟨_, rfl⟩
  · exact ⟨_, rfl⟩

theorem openCard_of_mediaHtml (b : Browser) (item : Item) (doc : Doc) (media : String)
    (h : mediaHtml b item = .ok media) :
    openCard b item doc = .ok
      { doc with
        overlays := doc.overlays ++
          [{ id := doc.nextId, className := "modal-overlay", style := overlayStyle
             modal :=
              { className := "modal", style := modalStyle
                innerHTML :=
                  modalHtml media (modalTitle item) (modalDate item)
                    (modalExplanation item) } }]
        keydownListeners := doc.keydownListeners ++ [doc.nextId]
        nextId := doc.nextId + 1 } := by
  simp [openCard, h]

theorem append_ne_of_take_ne (n : Nat) (p q r t : String)
    (hp : n ≤ p.data.length) (hq : n ≤ q.data.length)
    (hne : p.data.take n ≠ q.data.take n) : p ++ r ≠ q ++ t := by
  intro h
  apply hne
  have hd := congrArg (fun x : String => x.data.take n) h
  simp only [String.data_append] at hd
  rw [List.take_append_of_le_length hp, List.take_append_of_le_length hq] at hd
  exact hd

set_option maxRecDepth 100000 in
theorem videoHtml_ne_iframeHtml (x y : String) : videoHtml x ≠ iframeHtml y := by
  unfold videoHtml iframeHtml
  rw [String.append_assoc, String.append_assoc]
  exact append_ne_of_take_ne 22 _ _ _ _ (by decide) (by decide) (by decide)

theorem jsOrStr_of_truthy (a : Option String) (d s : String) (h : a = some s) (hs : s ≠ "") :
    jsOrStr a d = s := by
  subst h
  simp [jsOrStr, hs]

theorem jsOrStr_of_falsy (a : Option String) (d : String) (h : a = none ∨ a = some "") :
    jsOrStr a d = d := by
  rcases h with h | h <;> subst h <;> simp [jsOrStr]

theorem jsOr_of_truthy (a c : Option String) (s : String) (h : a = some s) (hs : s ≠ "") :
    jsOr a c = some s := by
  subst h
  simp [jsOr, truthy, hs]

theorem jsOr_of_falsy (a c : Option String) (h : a = none ∨ a = some "") : jsOr a c = c := by
  rcases h with h | h <;> subst h <;> simp [jsOr, truthy]

/-! ### The modal state machine -/

theorem closeModal_eq (k : Nat) (doc : Doc) :
    closeModal k doc =
      { doc with
        overlays := doc.overlays.filter (fun o => o.id != k)
        keydownListeners := doc.keydownListeners.filter (fun l => l != k) } := by
  unfold closeModal
  split
  · rfl
  · next h =>
    have hall : ∀ o ∈ doc.overlays, (o.id != k) = true := by
      intro o ho
      by_contra hc
      apply h
      rw [List.any_eq_true]
      exact ⟨o, ho, by simpa using hc⟩
    rw [List.filter_eq_self.mpr hall]

theorem length_filter_ne_of_nodup (k : Nat) (l : List Nat) (hk : k ∈ l) (hn : l.Nodup) :
    (l.filter (fun x => x != k)).length + 1 = l.length := by
  induction l with
  | nil => cases hk
  | cons a rest ih =>
    rw [List.nodup_cons] at hn
    by_cases ha : a = k
    · subst ha
      have hall : ∀ x ∈ rest, (x != a) = true := by
        intro x hx
        have : x ≠ a := fun h => hn.1 (h ▸ hx)
        simpa using this
      simp [List.filter_eq_self.mpr hall]
    · have hk2 : k ∈ rest := by
        rcases List.mem_cons.mp hk with h | h
        · exact absurd h.symm ha
        · exact h
      have := ih hk2 hn.2
      simp [ha, this]

theorem map_id_filter (k : Nat) (os : List Overlay) :
    (os.filter (fun o => o.id != k)).map (fun o => o.id)
      = (os.map (fun o => o.id)).filter (fun x => x != k) := by
  induction os with
  | nil => rfl
  | cons o rest ih =>
    by_cases h : o.id = k <;> simp [List.filter_cons, h, ih]

theorem consistent_of_noModal (doc : Doc) (h : doc.noModal) : doc.modalsConsistent := by
  obtain ⟨ho, hl⟩ := h
  simp [Doc.modalsConsistent, ho, hl]

theorem consistent_closeModal (k : Nat) (doc : Doc) (h : doc.modalsConsistent) :
    (closeModal k doc).modalsConsistent := by
  obtain ⟨hids, hnd, hlt⟩ := h
  rw [closeModal_eq]
  refine ⟨?_, ?_, ?_⟩
  · simp only []
    rw [map_id_filter, hids]
  · exact hnd.filter _
  · intro x hx
    exact hlt x (List.mem_of_mem_filter hx)

theorem consistent_openCard (b : Browser) (item : Item) (doc doc1 : Doc)
    (h : doc.modalsConsistent) (ho : openCard b item doc = .ok doc1) :
    doc1.modalsConsistent := by
  obtain ⟨hids, hnd, hlt⟩ := h
  obtain ⟨media, hm⟩ := mediaHtml_ok b item
  rw [openCard_of_mediaHtml b item doc media hm] at ho
  injection ho with ho
  subst ho
  refine ⟨?_, ?_, ?_⟩
  · simp [hids]
  · simp only []
    rw [List.nodup_append]
    refine ⟨hnd, List.nodup_singleton _, ?_⟩
    intro x hx hx2
    rw [List.mem_singleton] at hx2
    subst hx2
    exact Nat.lt_irrefl _ (hlt _ hx)
  · intro x hx
    simp only [List.mem_append, List.mem_singleton] at hx
    rcases hx with hx | hx
    · exact Nat.lt_succ_of_lt (hlt x hx)
    · subst hx
      exact Nat.lt_succ_self _

theorem closeModal_of_not_mem (k : Nat) (doc : Doc) (h : doc.modalsConsistent)
    (hk : k ∉ doc.keydownListeners) : closeModal k doc = doc := by
  rw [closeModal_eq]
  have h1 : ∀ x ∈ doc.keydownListeners, (x != k) = true := by
    intro x hx
    have : x ≠ k := fun e => hk (e ▸ hx)
    simpa using this
  have h2 : ∀ o ∈ doc.overlays, (o.id != k) = true := by
    intro o ho
    have hmem : o.id ∈ doc.keydownListeners := by
      rw [h.1]
      exact List.mem_map_of_mem _ ho
    have : o.id ≠ k := fun e => hk (e ▸ hmem)
    simpa using this
  rw [List.filter_eq_self.mpr h1, List.filter_eq_self.mpr h2]

theorem foldl_escape (l : List Nat) (doc : Doc) (h : doc.modalsConsistent)
    (hsub : ∀ k ∈ doc.keydownListeners, k ∈ l) :
    l.foldl (fun d k => if k ∈ d.keydownListeners then onKeyDown k "Escape" d else d) doc
      = { doc with overlays := [], keydownListeners := [] } := by
  induction l generalizing doc with
  | nil =>
    have hl : doc.keydownListeners = [] := by
      apply List.eq_nil_iff_forall_not_mem.mpr
      intro k hk
      exact absurd (hsub k hk) (List.not_mem_nil k)
    have ho : doc.overlays = [] := by
      have := h.1
      rw [hl] at this
      exact List.map_eq_nil_iff.mp this.symm
    cases doc
    simp only at hl ho
    subst hl ho
    rfl
  | cons k rest ih =>
    have hstep : (if k ∈ doc.keydownListeners then onKeyDown k "Escape" doc else doc)
        = closeModal k doc := by
      split
      · simp [onKeyDown]
      · next hk => exact (closeModal_of_not_mem k doc h hk).symm
    rw [List.foldl_cons, hstep, ih (closeModal k doc) (consistent_closeModal k doc h)]
    · rw [closeModal_eq]
    · intro x hx
      rw [closeModal_eq] at hx
      simp only [List.mem_filter] at hx
      rcases List.mem_cons.mp (hsub x hx.1) with e | e
      · subst e
        simp at hx
      · exact e

theorem dispatchKeydown_escape (doc : Doc) (h : doc.modalsConsistent) :
    dispatchKeydown "Escape" doc = { doc with overlays := [], keydownListeners := [] } :=
  foldl_escape doc.keydownListeners doc h (fun _ hk => hk)

theorem dispatchKeydown_other (key : String) (doc : Doc) (hkey : key ≠ "Escape") :
    dispatchKeydown key doc = doc := by
  unfold dispatchKeydown
  generalize doc.keydownListeners = l
  induction l with
  | nil => rfl
  | cons k rest _ => simp [List.foldl_cons, onKeyDown, hkey]

theorem consistent_dispatchKeydown (key : String) (doc : Doc) (h : doc.modalsConsistent) :
    (dispatchKeydown key doc).modalsConsistent := by
  by_cases hkey : key = "Escape"
  · subst hkey
    rw [dispatchKeydown_escape doc h]
    simp [Doc.modalsConsistent]
  · rw [dispatchKeydown_other key doc hkey]
    exact h

theorem step_ok (b : Browser) (doc : Doc) (a : Action) (h : doc.modalsConsistent) :
    ∃ doc1, step b doc a = .ok doc1 ∧ doc1.modalsConsistent := by
  cases a with
  | openCard item =>
    obtain ⟨media, hm⟩ := mediaHtml_ok b item
    have ho := openCard_of_mediaHtml b item doc media hm
    exact ⟨_, ho, consistent_openCard b item doc _ h ho⟩
  | clickCard i =>
    simp only [step]
    split
    · next c _ =>
      obtain ⟨media, hm⟩ := mediaHtml_ok b c.onClick
      have ho := openCard_of_mediaHtml b c.onClick doc media hm
      exact ⟨_, ho, consistent_openCard b c.onClick doc _ h ho⟩
    · exact ⟨doc, rfl, h⟩
  | clickClose k => exact ⟨_, rfl, consistent_closeModal k doc h⟩
  | clickOverlay k onBackdrop =>
    cases onBackdrop
    · exact ⟨doc, rfl, h⟩
    · exact ⟨_, rfl, consistent_closeModal k doc h⟩
  | keydown key => exact ⟨_, rfl, consistent_dispatchKeydown key doc h⟩

theorem runActions_ok (b : Browser) (acts : List Action) (doc : Doc)
    (h : doc.modalsConsistent) :
    ∃ s, runActions b acts doc = .ok s ∧ s.modalsConsistent := by
  induction acts generalizing doc with
  | nil => exact ⟨doc, rfl, h⟩
  | cons a rest ih =>
    obtain ⟨doc1, h1, hc⟩ := step_ok b doc a h
    obtain ⟨s, hs, hcs⟩ := ih doc1 hc
    exact ⟨s, by simp [runActions, h1, hs], hcs⟩

/-! ### Field defaults and the modal media, in terms of the markup functions -/

theorem field_defaults_aux (b : Browser) (item : Item) (doc : Doc) :
    cardTitle item = modalTitle item ∧ cardDate item = modalDate item ∧
    (∀ t, item.title = some t → t ≠ "" → cardTitle item = t) ∧
    ((item.title = none ∨ item.title = some "") → cardTitle item = "Untitled") ∧
    (∀ d, item.date = some d → d ≠ "" → cardDate item = d) ∧
    ((item.date = none ∨ item.date = some "") →
      ∀ d, item.date_created = some d → d ≠ "" → cardDate item = d) ∧
    ((item.date = none ∨ item.date = some "") →
      (item.date_created = none ∨ item.date_created = some "") →
      cardDate item = "Unknown date") ∧
    modalExplanation item = item.explanation.getD "" ∧
    (cardOf item).innerHTML =
        "\n        " ++
        thumbHtml item ++
        "\n        <div class=\"card-body\">\n          <h3 class=\"card-title\">" ++
        cardTitle item ++
        "</h3>\n          <p class=\"card-date\">" ++
        cardDate item ++
        "</p>\n        </div>\n      " ∧
    (∃ media, mediaHtml b item = .ok media ∧
      ∃ doc1, openCard b item doc = .ok doc1 ∧
        doc1.overlays.map (fun o => o.modal.innerHTML) =
          doc.overlays.map (fun o => o.modal.innerHTML) ++
            [modalHtml media (modalTitle item) (modalDate item) (modalExplanation item)]) := by
  refine ⟨rfl, rfl, ?_, ?_, ?_, ?_, ?_, ?_, rfl, ?_⟩
  · intro t ht hne
    exact jsOrStr_of_truthy _ _ _ ht hne
  · intro h
    exact jsOrStr_of_falsy _ _ h
  · intro d hd hne
    unfold cardDate
    rw [jsOr_of_truthy _ _ d hd hne]
    exact jsOrStr_of_truthy _ _ _ rfl hne
  · intro h d hd hne
    unfold cardDate
    rw [jsOr_of_falsy _ _ h]
    exact jsOrStr_of_truthy _ _ _ hd hne
  · intro h h2
    unfold cardDate
    rw [jsOr_of_falsy _ _ h]
    exact jsOrStr_of_falsy _ _ h2
  · unfold modalExplanation jsOrStr
    cases he : item.explanation with
    | none => rfl
    | some e =>
      by_cases h : e = ""
      · simp [h]
      · simp [h]
  · obtain ⟨media, hm⟩ := mediaHtml_ok b item
    refine ⟨media, hm, _, openCard_of_mediaHtml b item doc media hm, ?_⟩
    simp

theorem mediaHtml_cases (b : Browser) (item : Item) (doc : Doc) :
    (modalMediaType item = "video" ↔ item.media_type = some "video") ∧
    (isDirectVideo b (modalMediaUrl item) = true ↔
      (endsWith (b.toLowerCase (modalMediaUrl item)) ".mp4" = true ∨
        endsWith (b.toLowerCase (modalMediaUrl item)) ".webm" = true ∨
        endsWith (b.toLowerCase (modalMediaUrl item)) ".ogg" = true)) ∧
    (modalMediaType item = "video" →
      (isDirectVideo b (modalMediaUrl item) = true →
        mediaHtml b item = .ok (videoHtml (modalMediaUrl item))) ∧
      (isDirectVideo b (modalMediaUrl item) = false →
        ∃ embed, toEmbedUrl b (modalMediaUrl item) = .ok embed ∧
          mediaHtml b item = .ok (iframeHtml embed)) ∧
      (mediaHtml b item = .ok (videoHtml (modalMediaUrl item)) ↔
        isDirectVideo b (modalMediaUrl item) = true)) ∧
    (modalMediaType item ≠ "video" →
      mediaHtml b item = .ok (imgHtml (modalMediaUrl item) (modalTitle item))) ∧
    (∃ media doc1, mediaHtml b item = .ok media ∧ openCard b item doc = .ok doc1 ∧
      doc1.overlays.map (fun o => o.modal.innerHTML) =
        doc.overlays.map (fun o => o.modal.innerHTML) ++
          [modalHtml media (modalTitle item) (modalDate item) (modalExplanation item)]) := by
  refine ⟨?_, ?_, ?_, ?_, ?_⟩
  · unfold modalMediaType jsOrStr
    cases hm : item.media_type with
    | none => simp
    | some m =>
      by_cases h : m = ""
      · subst h
        simp
      · simp [h]
  · simp [isDirectVideo, Bool.or_eq_true, or_assoc]
  · intro hv
    have hd : isDirectVideo b (modalMediaUrl item) = true →
        mediaHtml b item = .ok (videoHtml (modalMediaUrl item)) := by
      intro hd
      simp [mediaHtml, hv, hd]
    have hi : isDirectVideo b (modalMediaUrl item) = false →
        ∃ embed, toEmbedUrl b (modalMediaUrl item) = .ok embed ∧
          mediaHtml b item = .ok (iframeHtml embed) := by
      intro hd
      obtain ⟨r, hr⟩ := toEmbedUrl_ok b (modalMediaUrl item)
      exact ⟨r, hr, by simp [mediaHtml, hv, hd, hr]⟩
    refine ⟨hd, hi, ⟨fun h => ?_, hd⟩⟩
    cases hdv : isDirectVideo b (modalMediaUrl item) with
    | true => rfl
    | false =>
      obtain ⟨embed, _, he⟩ := hi hdv
      rw [he] at h
      injection h with h
      exact absurd h.symm (videoHtml_ne_iframeHtml _ _)
  · intro hv
    simp [mediaHtml, hv]
  · obtain ⟨media, hm⟩ := mediaHtml_ok b item
    exact ⟨media, _, hm, openCard_of_mediaHtml b item doc media hm, by simp⟩

/-! ## Claims about `toEmbedUrl` -/

/-- C1: a string that parses as a URL whose lower-cased host contains
"youtube.com" and whose query has a parameter `v` is mapped to
"https://www.youtube.com/embed/" followed by the value of `v` (the first
value stored under that name). -/
theorem toEmbedUrl_youtube_watch (b : Browser) (url : String) (u : URL)
    (hparse : b.parseURL url = .ok u)
    (hhost : includes (b.toLowerCase u.hostname) "youtube.com" = true)
    (hv : u.has "v" = true) :
    ∃ v, u.get "v" = some v ∧ ("v", v) ∈ u.searchParams ∧
      toEmbedUrl b url = .ok ("https://www.youtube.com/embed/" ++ v) := by
  obtain ⟨v, hget, hmem⟩ := get_of_has u "v" hv
  refine ⟨v, hget, hmem, ?_⟩
  have hne := url_ne_empty_of_parse b url u hparse
  simp [toEmbedUrl, toEmbedUrlTry, hne, hparse, hhost, hv, hget]

/-- C1 at the address "https://www.youtube.com/watch?v=abc123". -/
theorem toEmbedUrl_youtube_watch_witness :
    ∃ v, URL.get ⟨"www.youtube.com", "/watch", [("v", "abc123")]⟩ "v" = some v ∧
      ("v", v) ∈ (⟨"www.youtube.com", "/watch", [("v", "abc123")]⟩ : URL).searchParams ∧
      toEmbedUrl refBrowser "https://www.youtube.com/watch?v=abc123"
        = .ok ("https://www.youtube.com/embed/" ++ v) :=
  toEmbedUrl_youtube_watch refBrowser "https://www.youtube.com/watch?v=abc123"
    ⟨"www.youtube.com", "/watch", [("v", "abc123")]⟩ (by rfl) (by rfl) (by rfl)

/-- C2: the code at a Vimeo address whose path has no non-empty segment.  The
array left by `filter(Boolean)` is empty, `pop()` gives `undefined`, and the
result is the player address followed by the word "undefined", not by a
segment of the path. -/
theorem toEmbedUrl_vimeo_no_segment (b : Browser) (url : String) (u : URL)
    (hparse : b.parseURL url = .ok u)
    (hyt : (includes (b.toLowerCase u.hostname) "youtube.com" && u.has "v") = false)
    (hshort : b.toLowerCase u.hostname ≠ "youtu.be")
    (hvimeo : includes (b.toLowerCase u.hostname) "vimeo.com" = true)
    (hseg : filterBoolean (split u.pathname '/') = []) :
    toEmbedUrl b url = .ok "https://player.vimeo.com/video/undefined" := by
  have hne := url_ne_empty_of_parse b url u hparse
  simp only [toEmbedUrl, toEmbedUrlTry, hne, hparse, hyt, hshort, hvimeo, hseg, pop, tmpl,
    if_false, if_true, List.getLast?_nil, Bool.false_eq_true]
  rfl

/-- C2 at the address "https://vimeo.com/". -/
theorem toEmbedUrl_vimeo_no_segment_witness :
    toEmbedUrl refBrowser "https://vimeo.com/" = .ok "https://player.vimeo.com/video/undefined" :=
  toEmbedUrl_vimeo_no_segment refBrowser "https://vimeo.com/" ⟨"vimeo.com", "/", []⟩
    (by rfl) (by rfl) (by decide) (by rfl) (by rfl)

/-- C3: `toEmbedUrl` never raises, and a string that cannot be parsed as a
URL is returned unchanged; the empty string gives the empty string. -/
theorem toEmbedUrl_silent_fallback (b : Browser) (url : String) :
    (∃ r, toEmbedUrl b url = .ok r) ∧
    ((∀ u, b.parseURL url ≠ .ok u) → toEmbedUrl b url = .ok url) ∧
    toEmbedUrl b "" = .ok "" := by
  refine ⟨?_, ?_, by simp [toEmbedUrl]⟩
  · unfold toEmbedUrl
    split
    · exact ⟨_, rfl⟩
    · split <;> exact ⟨_, rfl⟩
  · intro h
    unfold toEmbedUrl
    split
    · next he => rw [he]
    · unfold toEmbedUrlTry
      cases hp : b.parseURL url with
      | error e => rfl
      | ok u => exact absurd hp (h u)

/-- C3 at the string "not a url" and at the empty string. -/
theorem toEmbedUrl_silent_fallback_witness :
    toEmbedUrl refBrowser "not a url" = .ok "not a url" ∧
    toEmbedUrl refBrowser "" = .ok "" :=
  ⟨(toEmbedUrl_silent_fallback refBrowser "not a url").2.1
      (fun u => by simp [refBrowser, refParse]),
    (toEmbedUrl_silent_fallback refBrowser "not a url").2.2⟩

/-! ## Claims about `fetchAndRenderImages` and `showRandomFact` -/

/-- C10: the code on a document that has the gallery but no fact region.
`showRandomFact` does not create the region: the first write to the style of
the missing element throws a `TypeError`, whatever index was drawn. -/
theorem showRandomFact_absent_region (idx : Nat) (doc : Doc) (g : List Child)
    (hg : doc.gallery = some g) (hf : doc.factEl = none) :
    showRandomFact idx doc
      = .error (.typeError "Cannot read properties of null (reading style)") := by
  simp [showRandomFact, hg, hf]

/-- C10 on the freshly loaded page without a fact region. -/
theorem showRandomFact_absent_region_witness :
    showRandomFact 3 (initialDoc none)
      = .error (.typeError "Cannot read properties of null (reading style)") :=
  showRandomFact_absent_region 3 (initialDoc none) [] rfl rfl

/-- C4: the code on a document that has the gallery but no fact region, for a
successful fetch of a non-empty array.  `showRandomFact` throws before any
card is built, the `catch` block runs, and the gallery ends up with the
failure message instead of the cards. -/
theorem fetchAndRenderImages_no_cards_without_fact_region (env : Env) (doc : Doc)
    (g : List Child) (status : Nat) (e : Elem) (es : List Elem)
    (hg : doc.gallery = some g) (hf : doc.factEl = none)
    (hfetch : env.fetch = .response true status (some (.array (e :: es)))) :
    ∃ out, fetchAndRenderImages env doc = .ok out ∧
      out.doc.gallery = some [.markup failedHtml] ∧
      out.logged = some (.typeError "Cannot read properties of null (reading style)") := by
  simp [fetchAndRenderImages, tryBlock, hg, hf, hfetch, showRandomFact, setInnerHTML_empty,
    setInnerHTML_failed]

/-- C4 on the freshly loaded page without a fact region: a feed of one item
that resolves after 200 ms leaves no card in the gallery. -/
theorem fetchAndRenderImages_no_cards_without_fact_region_witness :
    ∃ out,
      fetchAndRenderImages
        { fetch := .response true 200 (some (.array [.obj { title := some "Moon" }]))
          loadingStart := 0, nowParsed := 200, nowCaught := 2000, randomIdx := 0 }
        (initialDoc none) = .ok out ∧
      out.doc.gallery = some [.markup failedHtml] ∧
      out.logged = some (.typeError "Cannot read properties of null (reading style)") :=
  fetchAndRenderImages_no_cards_without_fact_region _ (initialDoc none) [] 200
    (.obj { title := some "Moon" }) [] rfl rfl rfl

/-- C8: with `e` the time elapsed since the loading placeholder was shown,
the success path (a response with the flag `ok` whose body parsed) requests a
wait of `max 0 (2000 - e)` before the gallery is cleared, and the failure
path (rejected fetch, non-success status, body that is not JSON) requests a
wait of `max 0 (1000 - e)` before the failure message is shown; elapsed time
plus wait reaches the threshold and meets it exactly when `e` is below it. -/
theorem minimum_loading_time (env : Env) (doc : Doc) (g : List Child)
    (hg : doc.gallery = some g) :
    (∀ status items, env.fetch = .response true status (some items) →
      let e := env.nowParsed - env.loadingStart
      let w := (tryBlock env { doc with gallery := some (setInnerHTML loadingHtml) }).2.2.sum
      (tryBlock env { doc with gallery := some (setInnerHTML loadingHtml) }).2.2
          = (if e < 2000 then [2000 - e] else []) ∧
        w = max 0 (2000 - e) ∧ 2000 ≤ e + w ∧ (e < 2000 → e + w = 2000) ∧
        ∃ out, fetchAndRenderImages env doc = .ok out ∧
          (out.logged = none → out.delays.sum = max 0 (2000 - e))) ∧
    ((env.fetch = .rejected ∨ (∃ status body, env.fetch = .response false status body) ∨
        (∃ status, env.fetch = .response true status none)) →
      let e := env.nowCaught - env.loadingStart
      ∃ out, fetchAndRenderImages env doc = .ok out ∧
        out.delays = (if e < 1000 then [1000 - e] else []) ∧
        out.delays.sum = max 0 (1000 - e) ∧ 1000 ≤ e + out.delays.sum ∧
        (e < 1000 → e + out.delays.sum = 1000) ∧
        out.doc.gallery = some [.markup failedHtml]) := by
  have hsum : ∀ (t e : Int), (if e < t then [t - e] else []).sum = max 0 (t - e) := by
    intro t e
    split
    · next h => simp; omega
    · next h => simp; omega
  constructor
  · intro status items hfetch
    have hdel : (tryBlock env { doc with gallery := some (setInnerHTML loadingHtml) }).2.2
        = (if env.nowParsed - env.loadingStart < 2000
            then [2000 - (env.nowParsed - env.loadingStart)] else []) := by
      simp only [tryBlock, hfetch, Bool.not_true, Bool.false_eq_true, if_false]
      split
      · split <;> rfl
      · rfl
    simp only []
    rw [hdel, hsum]
    refine ⟨rfl, rfl, by omega, by omega, ?_⟩
    simp only [fetchAndRenderImages, hg]
    generalize htb : tryBlock env { doc with gallery := some (setInnerHTML loadingHtml) } = r
      at hdel
    obtain ⟨err, d, ds⟩ := r
    cases err with
    | none =>
      refine ⟨_, rfl, fun _ => ?_⟩
      simp only at hdel
      simp only [hdel, hsum]
    | some er =>
      refine ⟨_, rfl, fun h => ?_⟩
      simp at h
  · intro hfail
    have htb : tryBlock env { doc with gallery := some (setInnerHTML loadingHtml) }
        = (some (match env.fetch with
            | .rejected => JsError.fetchRejected
            | .response false status _ => JsError.networkError status
            | .response true _ _ => JsError.syntaxError),
          { doc with gallery := some (setInnerHTML loadingHtml) }, []) := by
      rcases hfail with h | ⟨status, body, h⟩ | ⟨status, h⟩ <;> simp [tryBlock, h]
    simp only [fetchAndRenderImages, hg, htb, List.nil_append]
    refine ⟨_, rfl, rfl, ?_, ?_, ?_, ?_⟩
    · exact hsum 1000 _
    · simp only [hsum]; omega
    · intro h; simp only [hsum]; omega
    · simp [setInnerHTML_failed]

/-- C8 at `e = 200`: the success path waits 1800 ms, the failure path 800 ms. -/
theorem minimum_loading_time_witness :
    (tryBlock
        { fetch := .response true 200 (some (.array [])), loadingStart := 5000,
          nowParsed := 5200, nowCaught := 5200, randomIdx := 0 }
        { initialDoc none with gallery := some (setInnerHTML loadingHtml) }).2.2 = [1800] ∧
    (fetchAndRenderImages
        { fetch := .rejected, loadingStart := 5000, nowParsed := 5200, nowCaught := 5200,
          randomIdx := 0 }
        (initialDoc none)).map (fun out => out.delays) = .ok [800] :=
  ⟨((minimum_loading_time
        { fetch := .response true 200 (some (.array [])), loadingStart := 5000,
          nowParsed := 5200, nowCaught := 5200, randomIdx := 0 }
        (initialDoc none) [] rfl).1 200 (.array []) rfl).1,
    by decide⟩

/-- C9 as amended: a successful response whose body is valid JSON but not an
array is not treated as a failure.  After the wait of the success path the
gallery shows the "No images found." placeholder, nothing is logged and the
fact region is left as it was; a rejected fetch on the same document ends
with the failure message, which is a different text. -/
theorem non_array_body_shows_no_images (env : Env) (doc : Doc) (g : List Child)
    (status : Nat) (items : Json)
    (hg : doc.gallery = some g)
    (hfetch : env.fetch = .response true status (some items))
    (hna : ∀ es, items ≠ .array es) :
    (∃ out, fetchAndRenderImages env doc = .ok out ∧
      out.doc.gallery = some
        [.markup "<div class=\"placeholder\"><p>No images found.</p></div>"] ∧
      out.logged = none ∧
      out.doc.factEl = doc.factEl ∧
      out.delays = (if env.nowParsed - env.loadingStart < 2000
        then [2000 - (env.nowParsed - env.loadingStart)] else [])) ∧
    (∀ env2 : Env, env2.fetch = .rejected →
      ∃ out2, fetchAndRenderImages env2 doc = .ok out2 ∧
        out2.doc.gallery = some
          [.markup
            "<div class=\"placeholder\"><p>Failed to load images. Try again later.</p></div>"] ∧
        out2.logged = some .fetchRejected) ∧
    ("<div class=\"placeholder\"><p>No images found.</p></div>"
      ≠ "<div class=\"placeholder\"><p>Failed to load images. Try again later.</p></div>") := by
  have htb : tryBlock env { doc with gallery := some (setInnerHTML loadingHtml) }
      = (none, { doc with gallery := some (setInnerHTML noImagesHtml) },
          if env.nowParsed - env.loadingStart < 2000
            then [2000 - (env.nowParsed - env.loadingStart)] else []) := by
    cases items with
    | array es => exact absurd rfl (hna es)
    | _ => simp [tryBlock, hfetch]
  refine ⟨?_, ?_, by decide⟩
  · simp only [fetchAndRenderImages, hg, htb]
    exact ⟨_, rfl, by simp only [setInnerHTML_noImages]; rfl, rfl, rfl, rfl⟩
  · intro env2 h2
    have htb2 : tryBlock env2 { doc with gallery := some (setInnerHTML loadingHtml) }
        = (some .fetchRejected, { doc with gallery := some (setInnerHTML loadingHtml) }, []) := by
      simp [tryBlock, h2]
    simp only [fetchAndRenderImages, hg, htb2]
    exact ⟨_, rfl, by simp only [setInnerHTML_failed]; rfl, rfl⟩

/-- C9 at the body `null`, fetched in 200 ms. -/
theorem non_array_body_shows_no_images_witness :
    ∃ out,
      fetchAndRenderImages
        { fetch := .response true 200 (some .null), loadingStart := 0, nowParsed := 200,
          nowCaught := 200, randomIdx := 0 }
        (initialDoc none) = .ok out ∧
      out.doc.gallery = some
        [.markup "<div class=\"placeholder\"><p>No images found.</p></div>"] ∧
      out.logged = none ∧
      out.doc.factEl = (initialDoc none).factEl ∧
      out.delays = (if (200 : Int) - 0 < 2000 then [2000 - (200 - 0)] else []) :=
  (non_array_body_shows_no_images
    { fetch := .response true 200 (some .null), loadingStart := 0, nowParsed := 200,
      nowCaught := 200, randomIdx := 0 }
    (initialDoc none) [] 200 .null rfl rfl (fun es h => by cases h)).1

/-- C9 refuted as stated: for the body `null` of a successful response the
gallery ends with the "No images found." placeholder, while a rejected fetch
ends with the failure message, and the two differ. -/
theorem non_array_body_is_not_shown_as_failure :
    (fetchAndRenderImages
        { fetch := .response true 200 (some .null), loadingStart := 0, nowParsed := 200,
          nowCaught := 200, randomIdx := 0 }
        (initialDoc none)).map (fun out => out.doc.gallery)
      = .ok (some [.markup "<div class=\"placeholder\"><p>No images found.</p></div>"]) ∧
    (fetchAndRenderImages
        { fetch := .rejected, loadingStart := 0, nowParsed := 200, nowCaught := 200,
          randomIdx := 0 }
        (initialDoc none)).map (fun out => out.doc.gallery)
      = .ok (some
          [.markup
            "<div class=\"placeholder\"><p>Failed to load images. Try again later.</p></div>"]) := by
  decide

/-! ## Claims about field defaults and the modal media -/

/-- C5 as amended: the card and the modal compute the same title and date.
The title is the title of the item when that is a non-empty string, and
"Untitled" when it is missing or empty; the date is `date` when non-empty,
else `date_created` when non-empty, else "Unknown date"; the explanation is
the one of the item, and empty text when missing.  The card markup shows the
title in its `h3` element and the date in its `p` element; the markup of the
modal that `openCard` appends shows the title in its `h2` element, followed
by the date and the explanation in one `p` element each. -/
theorem field_defaulting (b : Browser) (item : Item) (doc : Doc) :
    cardTitle item = modalTitle item ∧ cardDate item = modalDate item ∧
    (∀ t, item.title = some t → t ≠ "" → cardTitle item = t ∧ modalTitle item = t) ∧
    ((item.title = none ∨ item.title = some "") →
      cardTitle item = "Untitled" ∧ modalTitle item = "Untitled") ∧
    (∀ d, item.date = some d → d ≠ "" → cardDate item = d ∧ modalDate item = d) ∧
    ((item.date = none ∨ item.date = some "") →
      ∀ d, item.date_created = some d → d ≠ "" → cardDate item = d ∧ modalDate item = d) ∧
    ((item.date = none ∨ item.date = some "") →
      (item.date_created = none ∨ item.date_created = some "") →
      cardDate item = "Unknown date" ∧ modalDate item = "Unknown date") ∧
    modalExplanation item = item.explanation.getD "" ∧
    (cardOf item).innerHTML =
        "\n        " ++
        thumbHtml item ++
        "\n        <div class=\"card-body\">\n          <h3 class=\"card-title\">" ++
        cardTitle item ++
        "</h3>\n          <p class=\"card-date\">" ++
        cardDate item ++
        "</p>\n        </div>\n      " ∧
    (∃ media, mediaHtml b item = .ok media ∧
      ∃ doc1, openCard b item doc = .ok doc1 ∧
        doc1.overlays.map (fun o => o.modal.innerHTML) =
          doc.overlays.map (fun o => o.modal.innerHTML) ++
            ["\n    <button class=\"modal-close\" aria-label=\"Close\" style=\"position:absolute;right:8px;top:8px;border:none;background:#222;color:#fff;padding:6px 10px;border-radius:4px;cursor:pointer;\">×</button>\n    <div class=\"modal-media\">" ++
              media ++
              "</div>\n    <div class=\"modal-info\" style=\"margin-top:12px;\">\n      <h2 style=\"margin:0 0 6px 0;\">" ++
              modalTitle item ++
              "</h2>\n      <p style=\"margin:0 0 12px 0;color:#666;\">" ++
              modalDate item ++
              "</p>\n      <p style=\"margin:0 0 12px 0;white-space:pre-wrap;\">" ++
              modalExplanation item ++
              "</p>\n    </div>\n  "]) := by
  obtain ⟨h1, h2, h3, h4, h5, h6, h7, h8, h9, h10⟩ := field_defaults_aux b item doc
  refine ⟨h1, h2, ?_, ?_, ?_, ?_, ?_, h8, h9, h10⟩
  · intro t ht hne
    exact ⟨h3 t ht hne, h1 ▸ h3 t ht hne⟩
  · intro h
    exact ⟨h4 h, h1 ▸ h4 h⟩
  · intro d hd hne
    exact ⟨h5 d hd hne, h2 ▸ h5 d hd hne⟩
  · intro h d hd hne
    exact ⟨h6 h d hd hne, h2 ▸ h6 h d hd hne⟩
  · intro h hc
    exact ⟨h7 h hc, h2 ▸ h7 h hc⟩

/-- C5 refuted as stated: a title that is present as the empty string is not
shown as given but replaced by "Untitled", on the card and in the modal; and
an empty `date` gives way to `date_created`. -/
theorem empty_field_is_not_shown_as_given :
    ({ title := some "" } : Item).title = some "" ∧
    cardTitle { title := some "" } = "Untitled" ∧
    modalTitle { title := some "" } = "Untitled" ∧
    cardDate { date := some "", date_created := some "2024-01-01" } = "2024-01-01" := by
  decide

/-- C6: for an item whose media type is "video", `openCard` puts the native
player markup (a `video` element whose `source` has the media URL as `src`)
into the modal exactly when the lower-cased media URL ends in ".mp4", ".webm"
or ".ogg"; otherwise it puts the iframe markup whose `src` is the result of
`toEmbedUrl` on the media URL.  For any other media type it puts the image
markup with the media URL as `src`.  The chosen markup is the content of the
`modal-media` block of the modal that `openCard` appends. -/
theorem modal_media_selection (b : Browser) (item : Item) (doc : Doc) :
    (modalMediaType item = "video" ↔ item.media_type = some "video") ∧
    (isDirectVideo b (modalMediaUrl item) = true ↔
      (endsWith (b.toLowerCase (modalMediaUrl item)) ".mp4" = true ∨
        endsWith (b.toLowerCase (modalMediaUrl item)) ".webm" = true ∨
        endsWith (b.toLowerCase (modalMediaUrl item)) ".ogg" = true)) ∧
    (modalMediaType item = "video" →
      (isDirectVideo b (modalMediaUrl item) = true →
        mediaHtml b item = .ok
          ("\n        <div style=\"text-align:center;\">\n          <video controls style=\"max-width:100%;height:auto;border-radius:4px;\">\n            <source src=\"" ++
            modalMediaUrl item ++
            "\" />\n            Your browser does not support the video tag.\n          </video>\n        </div>\n      ")) ∧
      (isDirectVideo b (modalMediaUrl item) = false →
        ∃ embed, toEmbedUrl b (modalMediaUrl item) = .ok embed ∧
          mediaHtml b item = .ok
            ("\n        <div style=\"width:100%;height:480px;max-height:60vh;\">\n          <iframe src=\"" ++
              embed ++
              "\" frameborder=\"0\" allowfullscreen style=\"width:100%;height:100%;\"></iframe>\n        </div>\n      ")) ∧
      (mediaHtml b item = .ok
          ("\n        <div style=\"text-align:center;\">\n          <video controls style=\"max-width:100%;height:auto;border-radius:4px;\">\n            <source src=\"" ++
            modalMediaUrl item ++
            "\" />\n            Your browser does not support the video tag.\n          </video>\n        </div>\n      ") ↔
        isDirectVideo b (modalMediaUrl item) = true)) ∧
    (modalMediaType item ≠ "video" →
      mediaHtml b item = .ok
        ("\n      <div style=\"text-align:center;\">\n        <img src=\"" ++
          modalMediaUrl item ++
          "\" alt=\"" ++
          modalTitle item ++
          "\" style=\"max-width:100%;height:auto;border-radius:4px;\" />\n      </div>\n    ")) ∧
    (∃ media doc1, mediaHtml b item = .ok media ∧ openCard b item doc = .ok doc1 ∧
      doc1.overlays.map (fun o => o.modal.innerHTML) =
        doc.overlays.map (fun o => o.modal.innerHTML) ++
          ["\n    <button class=\"modal-close\" aria-label=\"Close\" style=\"position:absolute;right:8px;top:8px;border:none;background:#222;color:#fff;padding:6px 10px;border-radius:4px;cursor:pointer;\">×</button>\n    <div class=\"modal-media\">" ++
            media ++
            "</div>\n    <div class=\"modal-info\" style=\"margin-top:12px;\">\n      <h2 style=\"margin:0 0 6px 0;\">" ++
            modalTitle item ++
            "</h2>\n      <p style=\"margin:0 0 12px 0;color:#666;\">" ++
            modalDate item ++
            "</p>\n      <p style=\"margin:0 0 12px 0;white-space:pre-wrap;\">" ++
            modalExplanation item ++
            "</p>\n    </div>\n  "]) :=
  mediaHtml_cases b item doc

set_option maxRecDepth 100000 in
/-- C6 on three items: a video address ending in ".MP4" gets the native player,
a YouTube watch address gets an iframe on the embed address, and an item
without media type gets the image. -/
theorem modal_media_selection_witness :
    mediaHtml refBrowser { media_type := some "video", url := some "https://x.org/clip.MP4" }
      = .ok
        ("\n        <div style=\"text-align:center;\">\n          <video controls style=\"max-width:100%;height:auto;border-radius:4px;\">\n            <source src=\"" ++
          "https://x.org/clip.MP4" ++
          "\" />\n            Your browser does not support the video tag.\n          </video>\n        </div>\n      ") ∧
    mediaHtml refBrowser
        { media_type := some "video", url := some "https://www.youtube.com/watch?v=abc123" }
      = .ok
        ("\n        <div style=\"width:100%;height:480px;max-height:60vh;\">\n          <iframe src=\"" ++
          "https://www.youtube.com/embed/abc123" ++
          "\" frameborder=\"0\" allowfullscreen style=\"width:100%;height:100%;\"></iframe>\n        </div>\n      ") ∧
    mediaHtml refBrowser { url := some "https://x.org/moon.jpg", title := some "Moon" }
      = .ok
        ("\n      <div style=\"text-align:center;\">\n        <img src=\"" ++
          "https://x.org/moon.jpg" ++
          "\" alt=\"" ++
          "Moon" ++
          "\" style=\"max-width:100%;height:auto;border-radius:4px;\" />\n      </div>\n    ") :=
  ⟨((modal_media_selection refBrowser
        { media_type := some "video", url := some "https://x.org/clip.MP4" }
        (initialDoc none)).2.2.1 (by decide)).1 (by decide),
    by decide,
    (modal_media_selection refBrowser { url := some "https://x.org/moon.jpg", title := some "Moon" }
        (initialDoc none)).2.2.2.1 (by decide)⟩

/-! ## Claims about the modal lifecycle -/

/-- C7 as amended: from a document without modal, every sequence of actions
runs without raising and reaches a state in which the registered modal
listeners are exactly those of the overlays in the document, so the two
counts agree.  In such a state `openCard` adds one overlay and one listener
of the same call; the close button and a click on the backdrop run
`closeModal`, which removes the overlay and the listener of its call and
nothing else; an Escape press closes every open modal.  A further Escape
press after that changes nothing, and Escape changes nothing whenever no
modal is open; a modal that was closed stays closed under Escape. -/
theorem modal_lifecycle (b : Browser) (acts : List Action) (doc : Doc) (h0 : doc.noModal) :
    ∃ s, runActions b acts doc = .ok s ∧
      s.keydownListeners = s.overlays.map (fun o => o.id) ∧
      s.keydownListeners.length = s.overlays.length ∧
      (∀ item, ∃ s1 o, openCard b item s = .ok s1 ∧ o.id = s.nextId ∧
        s1.overlays = s.overlays ++ [o] ∧
        s1.keydownListeners = s.keydownListeners ++ [s.nextId] ∧
        s.nextId ∉ s.keydownListeners) ∧
      (∀ k, step b s (.clickClose k) = .ok (closeModal k s) ∧
        step b s (.clickOverlay k true) = .ok (closeModal k s) ∧
        step b s (.clickOverlay k false) = .ok s ∧
        (closeModal k s).overlays = s.overlays.filter (fun o => o.id != k) ∧
        (closeModal k s).keydownListeners = s.keydownListeners.filter (fun l => l != k) ∧
        k ∉ (closeModal k s).keydownListeners ∧
        k ∉ (closeModal k s).overlays.map (fun o => o.id) ∧
        k ∉ (dispatchKeydown "Escape" (closeModal k s)).keydownListeners ∧
        (k ∈ s.keydownListeners →
          (closeModal k s).overlays.length + 1 = s.overlays.length ∧
          (closeModal k s).keydownListeners.length + 1 = s.keydownListeners.length)) ∧
      step b s (.keydown "Escape") = .ok (dispatchKeydown "Escape" s) ∧
      (dispatchKeydown "Escape" s).overlays = [] ∧
      (dispatchKeydown "Escape" s).keydownListeners = [] ∧
      dispatchKeydown "Escape" (dispatchKeydown "Escape" s) = dispatchKeydown "Escape" s ∧
      (s.overlays = [] → dispatchKeydown "Escape" s = s) := by
  obtain ⟨s, hs, hc⟩ := runActions_ok b acts doc (consistent_of_noModal doc h0)
  have hesc := dispatchKeydown_escape s hc
  refine ⟨s, hs, hc.1, ?_, ?_, ?_, rfl, ?_, ?_, ?_, ?_⟩
  · rw [hc.1, List.length_map]
  · intro item
    obtain ⟨media, hm⟩ := mediaHtml_ok b item
    exact ⟨_, _, openCard_of_mediaHtml b item s media hm, rfl, rfl, rfl,
      fun hmem => Nat.lt_irrefl _ (hc.2.2 _ hmem)⟩
  · intro k
    have hk : k ∉ (closeModal k s).keydownListeners := by
      rw [closeModal_eq]
      simp
    refine ⟨rfl, rfl, rfl, by rw [closeModal_eq], by rw [closeModal_eq], hk, ?_, ?_, ?_⟩
    · rw [← (consistent_closeModal k s hc).1]
      exact hk
    · rw [dispatchKeydown_escape _ (consistent_closeModal k s hc)]
      simp
    · intro hmem
      have hlen := length_filter_ne_of_nodup k s.keydownListeners hmem hc.2.1
      rw [closeModal_eq]
      refine ⟨?_, hlen⟩
      simp only []
      rw [← List.length_map (s.overlays.filter (fun o => o.id != k)) (fun o => o.id),
        map_id_filter, ← hc.1, hlen, hc.1, List.length_map]
  · rw [hesc]
  · rw [hesc]
  · rw [dispatchKeydown_escape _ (consistent_dispatchKeydown "Escape" s hc), hesc]
  · intro he
    rw [hesc]
    have hl : s.keydownListeners = [] := by rw [hc.1, he]; rfl
    cases s
    simp only at he hl
    subst he hl
    rfl

/-- C7 on the page as loaded: a modal is opened, closed with the close
button, and Escape is pressed twice. -/
theorem modal_lifecycle_witness :
    ∃ s,
      runActions refBrowser
        [.openCard { title := some "Moon" }, .clickClose 0, .keydown "Escape",
          .keydown "Escape"]
        (initialDoc none) = .ok s ∧
      s.keydownListeners = s.overlays.map (fun o => o.id) ∧
      s.keydownListeners.length = s.overlays.length :=
  let ⟨s, h1, h2, h3, _⟩ :=
    modal_lifecycle refBrowser
      [.openCard { title := some "Moon" }, .clickClose 0, .keydown "Escape", .keydown "Escape"]
      (initialDoc none) ⟨rfl, rfl⟩
  ⟨s, h1, h2, h3⟩

set_option maxRecDepth 100000 in
/-- C7 refuted as stated: two modals are opened and the second is closed by a
click on its backdrop, which leaves the overlay and the listener of the first
call; the Escape press that follows closes that first modal, so it does
change the document. -/
theorem escape_after_close_changes_document :
    (runActions refBrowser [.openCard {}, .openCard {}, .clickOverlay 1 true]
        (initialDoc none)).map (fun s => (s.overlays.map (fun o => o.id), s.keydownListeners))
      = .ok ([0], [0]) ∧
    (runActions refBrowser [.openCard {}, .openCard {}, .clickOverlay 1 true, .keydown "Escape"]
        (initialDoc none)).map (fun s => (s.overlays.map (fun o => o.id), s.keydownListeners))
      = .ok ([], []) := by
  decide

/-! ## Further properties of the code -/

/-- With the fact region present, a successful fetch of a non-empty array of
objects ends with exactly one card per item in the gallery, the card of the
`i`-th item at position `i`, and nothing else; no error is logged. -/
theorem gallery_cards_in_feed_order (env : Env) (doc : Doc) (g : List Child) (fe : FactEl)
    (status : Nat) (items : List Item)
    (hg : doc.gallery = some g) (hf : doc.factEl = some fe) (hne : items ≠ [])
    (hfetch : env.fetch = .response true status (some (.array (items.map Elem.obj)))) :
    ∃ out, fetchAndRenderImages env doc = .ok out ∧
      out.doc.gallery = some (items.map (fun i => Child.card (cardOf i))) ∧
      (out.doc.gallery.getD []).length = items.length ∧
      out.logged = none := by
  cases items with
  | nil => exact absurd rfl hne
  | cons i rest =>
    have hfe := forEachCard_objs (i :: rest) []
    simp only [List.map_cons, List.nil_append] at hfe hfetch
    simp [fetchAndRenderImages, tryBlock, hg, hf, hfetch, showRandomFact, setInnerHTML_empty,
      hfe]

/-- The card list for a feed of two items, fetched in 200 ms with the fact
region present. -/
theorem gallery_cards_in_feed_order_witness :
    ∃ out,
      fetchAndRenderImages
        { fetch := .response true 200
            (some (.array ([{ title := some "Moon" }, { title := some "Mars" }].map Elem.obj)))
          loadingStart := 0, nowParsed := 200, nowCaught := 0, randomIdx := 4 }
        (initialDoc (some ⟨"", "", "", "", ""⟩)) = .ok out ∧
      out.doc.gallery = some
        ([{ title := some "Moon" }, { title := some "Mars" }].map
          (fun i => Child.card (cardOf i))) ∧
      (out.doc.gallery.getD []).length
        = [({ title := some "Moon" } : Item), { title := some "Mars" }].length ∧
      out.logged = none :=
  gallery_cards_in_feed_order _ (initialDoc (some ⟨"", "", "", "", ""⟩)) [] ⟨"", "", "", "", ""⟩
    200 [{ title := some "Moon" }, { title := some "Mars" }] rfl rfl (by simp) rfl

/-- With gallery and fact region present and an index inside the list,
`showRandomFact` succeeds, writes the heading and one fact of `space_facts`
as the whole content of the region, leaves the gallery alone, and gives the
same result whatever the region held before: a repeated call replaces the
earlier content. -/
theorem showRandomFact_overwrites (idx : Nat) (doc : Doc) (g : List Child) (fe : FactEl)
    (hg : doc.gallery = some g) (hf : doc.factEl = some fe)
    (hidx : idx < space_facts.length) :
    ∃ doc1 fact, showRandomFact idx doc = .ok doc1 ∧
      space_facts[idx]? = some fact ∧ fact ∈ space_facts ∧
      doc1.factEl = some
        { textAlign := "center", margin := "12px 0", fontSize := "18px", color := "#f1f1f1"
          innerHTML := factHtml fact } ∧
      doc1.gallery = doc.gallery ∧
      (∀ fe2, showRandomFact idx { doc with factEl := some fe2 } = .ok doc1) := by
  have hall : ∀ f ∈ space_facts, f ≠ "" := by decide
  have hget : space_facts[idx]? = some space_facts[idx] := List.getElem?_eq_getElem hidx
  have hmem : space_facts[idx] ∈ space_facts := List.getElem_mem hidx
  have hfact : jsOrStr space_facts[idx]? "" = space_facts[idx] :=
    jsOrStr_of_truthy _ _ _ hget (hall _ hmem)
  refine ⟨{ doc with
      factEl := some
        { textAlign := "center", margin := "12px 0", fontSize := "18px", color := "#f1f1f1"
          innerHTML := factHtml space_facts[idx] } },
    space_facts[idx], ?_, hget, hmem, rfl, rfl, ?_⟩
  · simp only [showRandomFact, hg, hf, hfact]
  · intro fe2
    simp only [showRandomFact, hg, hfact]

/-- The fact region after a draw of index 0 on a page with an empty region. -/
theorem showRandomFact_overwrites_witness :
    ∃ doc1 fact, showRandomFact 0 (initialDoc (some ⟨"", "", "", "", "old"⟩)) = .ok doc1 ∧
      space_facts[0]? = some fact ∧ fact ∈ space_facts ∧
      doc1.factEl = some
        { textAlign := "center", margin := "12px 0", fontSize := "18px", color := "#f1f1f1"
          innerHTML := factHtml fact } ∧
      doc1.gallery = (initialDoc (some ⟨"", "", "", "", "old"⟩)).gallery ∧
      (∀ fe2,
        showRandomFact 0 { initialDoc (some ⟨"", "", "", "", "old"⟩) with factEl := some fe2 }
          = .ok doc1) :=
  showRandomFact_overwrites 0 (initialDoc (some ⟨"", "", "", "", "old"⟩)) []
    ⟨"", "", "", "", "old"⟩ rfl rfl (by decide)

/-- A Vimeo address whose path has a non-empty segment is mapped to the player
address followed by the last such segment. -/
theorem toEmbedUrl_vimeo_segment (b : Browser) (url : String) (u : URL) (seg : String)
    (hparse : b.parseURL url = .ok u)
    (hyt : (includes (b.toLowerCase u.hostname) "youtube.com" && u.has "v") = false)
    (hshort : b.toLowerCase u.hostname ≠ "youtu.be")
    (hvimeo : includes (b.toLowerCase u.hostname) "vimeo.com" = true)
    (hseg : (filterBoolean (split u.pathname '/')).getLast? = some seg) :
    toEmbedUrl b url = .ok ("https://player.vimeo.com/video/" ++ seg) ∧
      seg ≠ "" ∧ seg ∈ split u.pathname '/' := by
  have hne := url_ne_empty_of_parse b url u hparse
  have hmem : seg ∈ filterBoolean (split u.pathname '/') := List.mem_of_getLast?_eq_some hseg
  unfold filterBoolean at hmem
  rw [List.mem_filter] at hmem
  refine ⟨?_, by simpa using hmem.2, hmem.1⟩
  simp only [toEmbedUrl, toEmbedUrlTry, hne, hparse, hyt, hshort, hvimeo, hseg, pop, tmpl,
    if_false, if_true, Bool.false_eq_true]

/-- The address "https://vimeo.com/12345". -/
theorem toEmbedUrl_vimeo_segment_witness :
    toEmbedUrl refBrowser "https://vimeo.com/12345"
        = .ok ("https://player.vimeo.com/video/" ++ "12345") ∧
      "12345" ≠ "" ∧ "12345" ∈ split "/12345" '/' :=
  toEmbedUrl_vimeo_segment refBrowser "https://vimeo.com/12345" ⟨"vimeo.com", "/12345", []⟩
    "12345" (by rfl) (by rfl) (by decide) (by rfl) (by rfl)

/-- A short link on the host "youtu.be" is mapped to the embed address of the
path after its leading slash. -/
theorem toEmbedUrl_short_link (b : Browser) (url : String) (u : URL)
    (hparse : b.parseURL url = .ok u)
    (hhost : b.toLowerCase u.hostname = "youtu.be") :
    toEmbedUrl b url = .ok ("https://www.youtube.com/embed/" ++ slice1 u.pathname) := by
  have hne := url_ne_empty_of_parse b url u hparse
  have hinc : includes "youtu.be" "youtube.com" = false := by decide
  simp [toEmbedUrl, toEmbedUrlTry, hne, hparse, hhost, hinc]

/-- The address "https://youtu.be/abc123". -/
theorem toEmbedUrl_short_link_witness :
    toEmbedUrl refBrowser "https://youtu.be/abc123"
      = .ok ("https://www.youtube.com/embed/" ++ slice1 "/abc123") :=
  toEmbedUrl_short_link refBrowser "https://youtu.be/abc123" ⟨"youtu.be", "/abc123", []⟩
    (by rfl) (by rfl)

/-- An empty array is not an error: after the wait of the success path the
gallery shows the "No images found." placeholder, nothing is logged and the
fact region is not touched. -/
theorem empty_array_shows_no_images (env : Env) (doc : Doc) (g : List Child) (status : Nat)
    (hg : doc.gallery = some g)
    (hfetch : env.fetch = .response true status (some (.array []))) :
    ∃ out, fetchAndRenderImages env doc = .ok out ∧
      out.doc.gallery = some [.markup noImagesHtml] ∧
      out.logged = none ∧
      out.doc.factEl = doc.factEl ∧
      out.delays = (if env.nowParsed - env.loadingStart < 2000
        then [2000 - (env.nowParsed - env.loadingStart)] else []) := by
  simp [fetchAndRenderImages, tryBlock, hg, hfetch, setInnerHTML_noImages]

/-- An empty array fetched in 200 ms. -/
theorem empty_array_shows_no_images_witness :
    ∃ out,
      fetchAndRenderImages
        { fetch := .response true 200 (some (.array [])), loadingStart := 0, nowParsed := 200,
          nowCaught := 0, randomIdx := 0 }
        (initialDoc none) = .ok out ∧
      out.doc.gallery = some [.markup noImagesHtml] ∧
      out.logged = none ∧
      out.doc.factEl = (initialDoc none).factEl ∧
      out.delays = (if (200 : Int) - 0 < 2000 then [2000 - (200 - 0)] else []) :=
  empty_array_shows_no_images _ (initialDoc none) [] 200 rfl rfl

/-- The card of a video item shows the image of `thumbnail_url` when that is
a non-empty string, and the static play block when both thumbnail fields are
missing or empty; the media URL is not used for the card of a video. -/
theorem video_card_thumbnail (item : Item) (hv : item.media_type = some "video") :
    (∀ t, item.thumbnail_url = some t → t ≠ "" →
      thumbHtml item =
        "<img src=\"" ++ t ++ "\" alt=\"" ++ cardTitle item ++
          " (video thumbnail)\" class=\"card-image\" />") ∧
    ((item.thumbnail_url = none ∨ item.thumbnail_url = some "") →
      (item.thumbnail = none ∨ item.thumbnail = some "") →
      thumbHtml item = playPlaceholderHtml) := by
  have hmt : cardMediaType item = "video" := by simp [cardMediaType, jsOrStr, hv]
  constructor
  · intro t ht hne
    have h1 : jsOrStr (jsOr item.thumbnail_url item.thumbnail) "" = t := by
      rw [jsOr_of_truthy _ _ t ht hne]
      exact jsOrStr_of_truthy _ _ _ rfl hne
    simp [thumbHtml, hmt, h1, hne]
  · intro h1 h2
    have h3 : jsOrStr (jsOr item.thumbnail_url item.thumbnail) "" = "" := by
      rw [jsOr_of_falsy _ _ h1]
      exact jsOrStr_of_falsy _ _ h2
    simp [thumbHtml, hmt, h3]

/-- A video item with the thumbnail "https://x/thumb.jpg". -/
theorem video_card_thumbnail_witness :
    thumbHtml { media_type := some "video", thumbnail_url := some "https://x/thumb.jpg" } =
      "<img src=\"" ++ "https://x/thumb.jpg" ++ "\" alt=\"" ++
        cardTitle { media_type := some "video", thumbnail_url := some "https://x/thumb.jpg" } ++
        " (video thumbnail)\" class=\"card-image\" />" :=
  (video_card_thumbnail { media_type := some "video", thumbnail_url := some "https://x/thumb.jpg" }
    rfl).1 "https://x/thumb.jpg" rfl (by decide)

end SpaceExplorer
